import Mathlib

/-!
Shallow embedding of the GenPyART generative-art engine (src/GenPyART.py)
and proofs about its core state machine: per-tick shape generation,
mirroring, undo/replay history, auto-clear, pause, and seed handling.

Randomness model: Python's `random` module is the sole source of
non-determinism.  It is modelled as a stream of raw natural-number draws
(`List Nat`); each call to `random.randint` / `random.choice` consumes one
draw.  An exhausted stream falls back to the lower bound / first element
(the real stream is never exhausted, so no modelled behaviour depends on
that fallback).

Canvas model: the Tk canvas is an append-only association list of
primitive handles (handles are allocated in increasing order, as Tk item
ids are).  `failAt` lists the handle allocations that a fallible Canvas
Surface would reject with `SurfaceOperationFailed`; the plain (total)
operations model the failure-free runs, the `...E` operations in the
`Except` monad model the fallible ones.  Style-only attributes that no
examined property mentions (stroke width, arc start/extent angles, fonts,
dash patterns, the outline-vs-fill rendering of the same coordinates) are
sampled where the source samples them (so the random stream advances
identically) but are not stored on the primitive.
-/

/-- Models `random.randint(lo, hi)`: an integer uniform on the inclusive
range, consuming one raw draw.  (Python raises for `lo > hi`; the model
then degenerates, and every theorem using it assumes `lo ≤ hi`.) -/
def pyRandint (lo hi : Int) (g : List Nat) : Int × List Nat :=
  match g with
  | [] => (lo, [])
  | r :: g' => (lo + ((r % (hi - lo + 1).toNat : Nat) : Int), g')

/-- Models `random.choice(l)` for a nonempty list: a uniform element,
consuming one raw draw.  `random.choice` on an empty list raises
(the spec's `EmptyDomain`); every caller in the source guards the call,
which is why this model can demand `l ≠ []`. -/
def pickUniform {α : Type} (l : List α) (hl : l ≠ []) (g : List Nat) : α × List Nat :=
  match g with
  | [] => (l.head hl, [])
  | r :: g' => (l.get ⟨r % l.length, Nat.mod_lt r (List.length_pos.mpr hl)⟩, g')

/-- Models `random_color()`: `"#%06x" % random.randint(0, 0xFFFFFF)`.
The color is modelled by its 24-bit numeric value rather than the hex
string. -/
def random_color (g : List Nat) : Int × List Nat :=
  pyRandint 0 0xFFFFFF g

/-- Models Python `range(0, stop, step)` for `step > 0`. -/
def pyRange (stop step : Nat) : List Nat :=
  (List.range ((stop + step - 1) / step)).map (fun k => k * step)

/-- A canvas primitive: Tk item kind (`"oval"`, `"line"`, `"arc"`,
`"rectangle"`, `"polygon"`, `"text"`), its coordinate list as returned by
`canvas.coords`, its color value, the text payload (for `"text"` items)
and its Tk tag (`"grid"` for grid lines, otherwise empty). -/
structure Prim where
  kind : String
  coords : List Int
  color : Int
  text : String := ""
  tag : String := ""
deriving Repr, DecidableEq

/-- The Canvas Surface: handles are allocated from `nextId` upward (Tk item
ids start at 1 and increase).  `failAt` is the set of allocations a
fallible surface rejects; the total operations below ignore it (no-failure
runs), `Canvas.createE` consults it. -/
structure Canvas where
  nextId : Nat := 1
  items : List (Nat × Prim) := []
  failAt : List Nat := []
deriving Repr, DecidableEq

/-- `canvas.create_*`: allocate the next handle for the primitive. -/
def Canvas.create (c : Canvas) (p : Prim) : Nat × Canvas :=
  (c.nextId, { c with nextId := c.nextId + 1, items := c.items ++ [(c.nextId, p)] })

/-- `canvas.delete(item)`. -/
def Canvas.deleteItem (c : Canvas) (h : Nat) : Canvas :=
  { c with items := c.items.filter (fun q => q.1 ≠ h) }

/-- `canvas.delete("all")`. -/
def Canvas.deleteAll (c : Canvas) : Canvas :=
  { c with items := [] }

/-- `canvas.delete(tag)`, deleting every item carrying the tag. -/
def Canvas.deleteTag (c : Canvas) (t : String) : Canvas :=
  { c with items := c.items.filter (fun q => q.2.tag ≠ t) }

/-- `canvas.coords(item)`; `[]` for an unknown handle. -/
def Canvas.coordsOf (c : Canvas) (h : Nat) : List Int :=
  match c.items.find? (fun q => q.1 = h) with
  | some q => q.2.coords
  | none => []

/-- `canvas.type(item)`; `""` for an unknown handle. -/
def Canvas.typeOf (c : Canvas) (h : Nat) : String :=
  match c.items.find? (fun q => q.1 = h) with
  | some q => q.2.kind
  | none => ""

/-- `canvas.itemconfigure(item, text=s)`. -/
def Canvas.setText (c : Canvas) (h : Nat) (s : String) : Canvas :=
  { c with items := c.items.map (fun q => if q.1 = h then (q.1, { q.2 with text := s }) else q) }

/-- `canvas.tag_raise(item)`: move the item to the top of the z-order
(the end of the display list). -/
def Canvas.tagRaise (c : Canvas) (h : Nat) : Canvas :=
  { c with items := c.items.filter (fun q => q.1 ≠ h) ++ c.items.filter (fun q => q.1 = h) }

/-- Canvas well-formedness: every live handle was allocated below
`nextId`.  Holds for every state reachable from an empty canvas. -/
def Canvas.WF (c : Canvas) : Prop :=
  ∀ q ∈ c.items, q.1 < c.nextId

instance (c : Canvas) : Decidable c.WF :=
  decidable_of_iff (∀ q ∈ c.items, q.1 < c.nextId) Iff.rfl

/-- The `SETTINGS` dictionary.  `custom_palette` is stored in the source as
a comma-separated string of `#rrggbb` colors; it is modelled as the list of
their numeric values (the empty string being `[]`).  `drawing_mode` mirrors
the dictionary entry; the animation loop actually reads the Tk variable
(`AppState.drawing_mode`), as the source does. -/
structure Settings where
  animation_speed : Nat
  auto_clear_threshold : Nat
  drawing_mode : String
  burst_count : Nat
  min_shape_size : Int
  max_shape_size : Int
  outline_only : Bool
  mirror_drawing : Bool
  grid_overlay : Bool
  bg_color : Int
  custom_palette : List Int
  watermark_enabled : Bool
  watermark_text : String
  meme_text : String
  meme_font : String
  meme_font_size : Nat
  random_seed : Option Int
deriving Repr, DecidableEq

/-- The `SHAPE_TYPES` dictionary: one enable flag per shape type, in the
source's insertion order circle, line, arc, rectangle, triangle. -/
structure ShapeTypes where
  circle : Bool
  line : Bool
  arc : Bool
  rectangle : Bool
  triangle : Bool
deriving Repr, DecidableEq

/-- A `shape_record`: the drawn type, the canvas handles of its primitives,
and the handles of its mirrored primitives.  The source only adds the
`"mirror_items"` key when mirroring is on and reads it back with
`.get("mirror_items", [])`, so the absent key is modelled as `[]`. -/
structure ShapeRecord where
  type : String
  items : List Nat
  mirror_items : List Nat
deriving Repr, DecidableEq

/-- The mutable state of `GenerativeArtApp` that the core reads or writes:
canvas bounds, pause flag, frame counter, draw history, overlay handles,
settings, shape enable set, the Tk variables `special_mode`, `chaos_mode`
and `drawing_mode`, the speed scale widget value, the random stream, and
the status-bar text. -/
structure AppState where
  CANVAS_WIDTH : Int
  CANVAS_HEIGHT : Int
  paused : Bool
  frame_count : Nat
  draw_history : List ShapeRecord
  meme_text_id : Option Nat
  watermark_id : Option Nat
  settings : Settings
  shape_types : ShapeTypes
  special_mode : String
  chaos_mode : Bool
  drawing_mode : String
  speed_scale : Nat
  canvas : Canvas
  rng : List Nat
  status : String
deriving Repr, DecidableEq

/-- `available_shapes = [s for s, enabled in self.SHAPE_TYPES.items() if enabled]`. -/
def enabledShapes (t : ShapeTypes) : List String :=
  (([("circle", t.circle), ("line", t.line), ("arc", t.arc),
     ("rectangle", t.rectangle), ("triangle", t.triangle)].filter
      (fun p => p.2)).map (fun p => p.1))

/-- `shape_type = random.choice(available_shapes) if available_shapes else "circle"`:
the guard comes first, so `random.choice` is never invoked on an empty
domain and no draw is consumed in the fallback case. -/
def genShapeType (ts : ShapeTypes) (g : List Nat) : String × List Nat :=
  let available_shapes := enabledShapes ts
  if h : available_shapes = [] then ("circle", g)
  else pickUniform available_shapes h g

/-- The UltraRandom pre-step of `draw_shape`: overwrite `outline_only`,
`mirror_drawing` and `custom_palette` with fresh random values (palette:
a 50% coin, then either three random colors or empty). -/
def ultraRandomize (s : Settings) (g : List Nat) : Settings × List Nat :=
  let (o, g) := pickUniform [true, false] (List.cons_ne_nil _ _) g
  let (m, g) := pickUniform [true, false] (List.cons_ne_nil _ _) g
  let (coin, g) := pickUniform [true, false] (List.cons_ne_nil _ _) g
  if coin then
    let (c1, g) := pyRandint 0 0xFFFFFF g
    let (c2, g) := pyRandint 0 0xFFFFFF g
    let (c3, g) := pyRandint 0 0xFFFFFF g
    ({ s with outline_only := o, mirror_drawing := m, custom_palette := [c1, c2, c3] }, g)
  else
    ({ s with outline_only := o, mirror_drawing := m, custom_palette := [] }, g)

/-- The per-type geometry of `draw_shape`: given the already-sampled size,
anchor and color, build the primitive for the shape type, consuming the
extra draws the source consumes in each branch (line endpoint and width,
arc angles, triangle vertex offsets).  An unknown type builds nothing,
matching the exhausted `elif` chain. -/
def shapePrim (W H size x y : Int) (color : Int) (shape_type : String)
    (g : List Nat) : Option Prim × List Nat :=
  if shape_type = "circle" then
    (some { kind := "oval", coords := [x - size, y - size, x + size, y + size], color := color }, g)
  else if shape_type = "line" then
    let (x2, g) := pyRandint 0 W g
    let (y2, g) := pyRandint 0 H g
    let (_width_line, g) := pyRandint 1 5 g
    (some { kind := "line", coords := [x, y, x2, y2], color := color }, g)
  else if shape_type = "arc" then
    let (_start_angle, g) := pyRandint 0 360 g
    let (_extent_angle, g) := pyRandint 30 180 g
    (some { kind := "arc", coords := [x, y, x + size, y + size], color := color }, g)
  else if shape_type = "rectangle" then
    (some { kind := "rectangle", coords := [x, y, x + size, y + size], color := color }, g)
  else if shape_type = "triangle" then
    let (d2x, g) := pyRandint (-size) size g
    let (d2y, g) := pyRandint (-size) size g
    let (d3x, g) := pyRandint (-size) size g
    let (d3y, g) := pyRandint (-size) size g
    (some { kind := "polygon", coords := [x, y, x + d2x, y + d2y, x + d3x, y + d3y], color := color }, g)
  else (none, g)

/-- `mirrored_coords = [self.CANVAS_WIDTH - val if idx % 2 == 0 else val
for idx, val in enumerate(coords)]`, with `idx` the running enumeration
index. -/
def mirroredCoords (W : Int) : Nat → List Int → List Int
  | _, [] => []
  | idx, val :: rest => (if idx % 2 = 0 then W - val else val) :: mirroredCoords W (idx + 1) rest

/-- Dispatch of the mirror loop on `canvas.type(item)`: each of the five
known kinds is recreated with the mirrored coordinates; anything else
yields no mirror item (`m_item = None`). -/
def mirrorPrimOf (kind : String) (mcoords : List Int) (color : Int) : Option Prim :=
  if kind = "oval" then some { kind := "oval", coords := mcoords, color := color }
  else if kind = "line" then some { kind := "line", coords := mcoords, color := color }
  else if kind = "arc" then some { kind := "arc", coords := mcoords, color := color }
  else if kind = "rectangle" then some { kind := "rectangle", coords := mcoords, color := color }
  else if kind = "polygon" then some { kind := "polygon", coords := mcoords, color := color }
  else none

/-- One iteration of the mirror loop body: read the item's coordinates and
type back from the canvas, mirror them, create the mirror primitive and
collect its handle. -/
def mirrorStep (W : Int) (color : Int) (acc : List Nat × Canvas) (item : Nat) :
    List Nat × Canvas :=
  let coords := acc.2.coordsOf item
  let mirrored_coords := mirroredCoords W 0 coords
  let item_type := acc.2.typeOf item
  match mirrorPrimOf item_type mirrored_coords color with
  | some mp => (acc.1 ++ [(acc.2.create mp).1], (acc.2.create mp).2)
  | none => acc

/-- The rendering tail of `draw_shape`: create the shape's primitive,
optionally run the mirror loop over the recorded items, and assemble the
`shape_record`. -/
def renderAndRecord (canvas : Canvas) (shape_type : String) (prim? : Option Prim)
    (mirror : Bool) (W : Int) (color : Int) : Canvas × ShapeRecord :=
  let ic : List Nat × Canvas :=
    match prim? with
    | some p => ([(canvas.create p).1], (canvas.create p).2)
    | none => ([], canvas)
  let mc : List Nat × Canvas :=
    if mirror then ic.1.foldl (mirrorStep W color) ([], ic.2)
    else ([], ic.2)
  (mc.2, { type := shape_type, items := ic.1, mirror_items := mc.1 })

/-- The sampling head of `draw_shape`, in source order: the UltraRandom
pre-step, the shape-type choice, `size`, the anchor `x, y`, the color, and
the per-type extra draws folded into the primitive. -/
structure DrawParams where
  settings : Settings
  shape_type : String
  size : Int
  prim : Option Prim
  color : Int
  g : List Nat
deriving Repr, DecidableEq

/-- Sample everything `draw_shape` samples, in the source's order. -/
def drawParams (st : AppState) : DrawParams :=
  let (settings, g) :=
    if st.special_mode = "UltraRandom" then ultraRandomize st.settings st.rng
    else (st.settings, st.rng)
  let (shape_type, g) := genShapeType st.shape_types g
  let (size, g) := pyRandint settings.min_shape_size settings.max_shape_size g
  let (x, g) := pyRandint 0 st.CANVAS_WIDTH g
  let (y, g) := pyRandint 0 st.CANVAS_HEIGHT g
  let (color, g) := random_color g
  let (prim?, g) := shapePrim st.CANVAS_WIDTH st.CANVAS_HEIGHT size x y color shape_type g
  { settings := settings, shape_type := shape_type, size := size,
    prim := prim?, color := color, g := g }

/-- `draw_shape`: sample, render (with optional mirror), append the record
to the draw history.  Note that the sampled color is always the fresh
`random_color()` draw; `SETTINGS["custom_palette"]` is never consulted. -/
def draw_shape (st : AppState) : AppState :=
  let p := drawParams st
  let (canvas, shape_record) :=
    renderAndRecord st.canvas p.shape_type p.prim p.settings.mirror_drawing
      st.CANVAS_WIDTH p.color
  { st with settings := p.settings, rng := p.g, canvas := canvas,
            draw_history := st.draw_history ++ [shape_record] }

/-- `draw_grid`: when the grid overlay is on, create dashed grid lines
tagged `"grid"` every 50 pixels. -/
def draw_grid (st : AppState) : AppState :=
  if st.settings.grid_overlay then
    let c := (pyRange st.CANVAS_WIDTH.toNat 50).foldl
      (fun c x => (Canvas.create c
        { kind := "line", coords := [(x : Int), 0, (x : Int), st.CANVAS_HEIGHT],
          color := 0x333333, tag := "grid" }).2) st.canvas
    let c := (pyRange st.CANVAS_HEIGHT.toNat 50).foldl
      (fun c y => (Canvas.create c
        { kind := "line", coords := [0, (y : Int), st.CANVAS_WIDTH, (y : Int)],
          color := 0x333333, tag := "grid" }).2) c
    { st with canvas := c }
  else st

/-- `update_grid`: delete the tagged grid lines, then redraw them. -/
def update_grid (st : AppState) : AppState :=
  draw_grid { st with canvas := st.canvas.deleteTag "grid" }

/-- The meme overlay text primitive (`fill="white"`). -/
def memePrim (st : AppState) : Prim :=
  { kind := "text", coords := [st.CANVAS_WIDTH / 2, st.CANVAS_HEIGHT - 50],
    color := 0xFFFFFF, text := st.settings.meme_text }

/-- The watermark overlay text primitive (`fill="#888888"`). -/
def watermarkPrim (st : AppState) : Prim :=
  { kind := "text", coords := [st.CANVAS_WIDTH - 80, st.CANVAS_HEIGHT - 20],
    color := 0x888888, text := st.settings.watermark_text }

/-- `clear_canvas`: wipe every canvas item, empty the history, reset the
frame counter, redraw the grid, and recreate the meme and watermark
overlays when configured. -/
def clear_canvas (st : AppState) : AppState :=
  let st := { st with canvas := st.canvas.deleteAll, draw_history := [], frame_count := 0 }
  let st := update_grid st
  let st :=
    if st.settings.meme_text ≠ "" then
      let (h, c) := st.canvas.create (memePrim st)
      { st with canvas := c, meme_text_id := some h }
    else st
  if st.settings.watermark_enabled then
    let (h, c) := st.canvas.create (watermarkPrim st)
    { st with canvas := c, watermark_id := some h }
  else st

/-- `undo_last_shape`: pop the last record and delete its primitives and
mirror primitives; with an empty history, report that there is nothing to
undo. -/
def undo_last_shape (st : AppState) : AppState :=
  match st.draw_history.getLast? with
  | some last_shape =>
    let canvas := last_shape.items.foldl Canvas.deleteItem st.canvas
    let canvas := last_shape.mirror_items.foldl Canvas.deleteItem canvas
    { st with draw_history := st.draw_history.dropLast, canvas := canvas,
              status := "Last shape undone" }
  | none => { st with status := "No shapes to undo" }

/-- `for _ in range(n): self.draw_shape()`. -/
def burstDraw : Nat → AppState → AppState
  | 0, st => st
  | n + 1, st => burstDraw n (draw_shape st)

/-- The chaos-mode step of `animate`: every 50th frame, set the background
to a fresh random color. -/
def applyChaos (st : AppState) : AppState :=
  if st.chaos_mode ∧ st.frame_count % 50 = 0 then
    let (c, g) := random_color st.rng
    { st with settings := { st.settings with bg_color := c }, rng := g }
  else st

/-- The meme-overlay step of `animate`: create once or update in place,
then raise to the top. -/
def applyMeme (st : AppState) : AppState :=
  if st.settings.meme_text ≠ "" then
    match st.meme_text_id with
    | none =>
      let (h, c) := st.canvas.create (memePrim st)
      { st with canvas := c.tagRaise h, meme_text_id := some h }
    | some h =>
      { st with canvas := (st.canvas.setText h st.settings.meme_text).tagRaise h }
  else st

/-- The watermark step of `animate`: create once or update in place and
raise while enabled, else delete the overlay and clear its handle. -/
def applyWatermark (st : AppState) : AppState :=
  if st.settings.watermark_enabled then
    match st.watermark_id with
    | none =>
      let (h, c) := st.canvas.create (watermarkPrim st)
      { st with canvas := c.tagRaise h, watermark_id := some h }
    | some h =>
      { st with canvas := (st.canvas.setText h st.settings.watermark_text).tagRaise h }
  else
    match st.watermark_id with
    | some h => { st with canvas := st.canvas.deleteItem h, watermark_id := none }
    | none => st

/-- One `animate` callback: when unpaused, bump the frame counter, draw one
shape (continuous) or a burst, auto-clear at the threshold, apply chaos
mode, reconcile the overlays; in every case reschedule after the current
speed-scale value.  The returned number is the delay passed to
`root.after`. -/
def animate (st : AppState) : AppState × Nat :=
  let st' :=
    if st.paused then st
    else
      let st1 := { st with frame_count := st.frame_count + 1 }
      let st2 :=
        if st1.drawing_mode = "continuous" then draw_shape st1
        else burstDraw st1.settings.burst_count st1
      let st3 :=
        if st2.settings.auto_clear_threshold ≤ st2.frame_count then clear_canvas st2
        else st2
      let st4 := applyChaos st3
      let st5 := applyMeme st4
      applyWatermark st5
  (st', st'.speed_scale)

/-- The state transformation of one scheduled `animate` tick. -/
def tick (st : AppState) : AppState :=
  (animate st).1

/-- The `replay_next` chain of `replay_history`: starting from
`replay_next(0)`, each call with `index < len(history_copy)` draws one
shape and schedules `replay_next(index + 1)`; the call with
`index = len(history_copy)` reports completion.  The chain is compiled by
the remaining count `len(history_copy) - index`. -/
def replay_next : Nat → AppState → AppState
  | 0, st => { st with status := "Replay complete" }
  | n + 1, st => replay_next n (draw_shape st)

/-- `replay_history`: with an empty history report and stop; otherwise
snapshot the history, clear the canvas and history, and re-draw one shape
per snapshot entry, reporting completion at the end. -/
def replay_history (st : AppState) : AppState :=
  if st.draw_history.isEmpty then { st with status := "No history to replay" }
  else
    let history_copy := st.draw_history
    let st := clear_canvas st
    let st := { st with frame_count := 0, status := "Replaying history..." }
    replay_next history_copy.length st

/-- `toggle_pause`. -/
def toggle_pause (st : AppState) : AppState :=
  let p := !st.paused
  { st with paused := p, status := if p then "Paused" else "Running" }

/-- `set_random_seed`: `parsed` is the outcome of the builtin
`int(self.seed_entry.get())` call, which raises for non-integer text
(`none`); `seedFn` models `random.seed`'s deterministic re-initialization
of the pseudo-random stream.  On failure nothing but the status text
changes; on success the stream is re-seeded, the setting is updated, and
the status reports the seed. -/
def set_random_seed (seedFn : Int → List Nat) (parsed : Option Int) (st : AppState) :
    AppState :=
  match parsed with
  | some seed_val =>
    { st with rng := seedFn seed_val,
              settings := { st.settings with random_seed := some seed_val },
              status := "Seed set to " ++ toString seed_val }
  | none => { st with status := "Invalid seed value" }

/-- `canvas.create_*` on a fallible Canvas Surface: allocations listed in
`failAt` raise `SurfaceOperationFailed`. -/
def Canvas.createE (c : Canvas) (p : Prim) : Except String (Nat × Canvas) :=
  if c.nextId ∈ c.failAt then Except.error "SurfaceOperationFailed"
  else Except.ok (c.nextId, { c with nextId := c.nextId + 1, items := c.items ++ [(c.nextId, p)] })

/-- `mirrorStep` against the fallible surface. -/
def mirrorStepE (W : Int) (color : Int) (acc : List Nat × Canvas) (item : Nat) :
    Except String (List Nat × Canvas) :=
  let coords := acc.2.coordsOf item
  let mirrored_coords := mirroredCoords W 0 coords
  let item_type := acc.2.typeOf item
  match mirrorPrimOf item_type mirrored_coords color with
  | some mp => do
    let hc ← acc.2.createE mp
    pure (acc.1 ++ [hc.1], hc.2)
  | none => pure acc

/-- `renderAndRecord` against the fallible surface: the source wraps none
of these calls in try/except, so a failure propagates. -/
def renderAndRecordE (canvas : Canvas) (shape_type : String) (prim? : Option Prim)
    (mirror : Bool) (W : Int) (color : Int) : Except String (Canvas × ShapeRecord) := do
  let ic : List Nat × Canvas ←
    match prim? with
    | some p => do
      let hc ← canvas.createE p
      pure ([hc.1], hc.2)
    | none => pure ([], canvas)
  let mc : List Nat × Canvas ←
    if mirror then ic.1.foldlM (mirrorStepE W color) ([], ic.2)
    else pure ([], ic.2)
  pure (mc.2, { type := shape_type, items := ic.1, mirror_items := mc.1 })

/-- `draw_shape` against the fallible surface. -/
def draw_shapeE (st : AppState) : Except String AppState := do
  let p := drawParams st
  let (canvas, shape_record) ←
    renderAndRecordE st.canvas p.shape_type p.prim p.settings.mirror_drawing
      st.CANVAS_WIDTH p.color
  pure { st with settings := p.settings, rng := p.g, canvas := canvas,
                 draw_history := st.draw_history ++ [shape_record] }

/-- The burst loop against the fallible surface: an uncaught failure in one
iteration aborts the remaining iterations. -/
def burstDrawE : Nat → AppState → Except String AppState
  | 0, st => pure st
  | n + 1, st => do
    let st' ← draw_shapeE st
    burstDrawE n st'

/-- `draw_grid` against the fallible surface. -/
def draw_gridE (st : AppState) : Except String AppState :=
  if st.settings.grid_overlay then do
    let c ← (pyRange st.CANVAS_WIDTH.toNat 50).foldlM
      (fun c x => do
        let hc ← Canvas.createE c
          { kind := "line", coords := [(x : Int), 0, (x : Int), st.CANVAS_HEIGHT],
            color := 0x333333, tag := "grid" }
        pure hc.2) st.canvas
    let c ← (pyRange st.CANVAS_HEIGHT.toNat 50).foldlM
      (fun c y => do
        let hc ← Canvas.createE c
          { kind := "line", coords := [0, (y : Int), st.CANVAS_WIDTH, (y : Int)],
            color := 0x333333, tag := "grid" }
        pure hc.2) c
    pure { st with canvas := c }
  else pure st

/-- `update_grid` against the fallible surface. -/
def update_gridE (st : AppState) : Except String AppState :=
  draw_gridE { st with canvas := st.canvas.deleteTag "grid" }

/-- `clear_canvas` against the fallible surface. -/
def clear_canvasE (st : AppState) : Except String AppState := do
  let st := { st with canvas := st.canvas.deleteAll, draw_history := [], frame_count := 0 }
  let st ← update_gridE st
  let st ←
    if st.settings.meme_text ≠ "" then do
      let hc ← st.canvas.createE (memePrim st)
      pure { st with canvas := hc.2, meme_text_id := some hc.1 }
    else pure st
  if st.settings.watermark_enabled then do
    let hc ← st.canvas.createE (watermarkPrim st)
    pure { st with canvas := hc.2, watermark_id := some hc.1 }
  else pure st

/-- The meme-overlay step against the fallible surface. -/
def applyMemeE (st : AppState) : Except String AppState :=
  if st.settings.meme_text ≠ "" then
    match st.meme_text_id with
    | none => do
      let hc ← st.canvas.createE (memePrim st)
      pure { st with canvas := hc.2.tagRaise hc.1, meme_text_id := some hc.1 }
    | some h =>
      pure { st with canvas := (st.canvas.setText h st.settings.meme_text).tagRaise h }
  else pure st

/-- The watermark step against the fallible surface. -/
def applyWatermarkE (st : AppState) : Except String AppState :=
  if st.settings.watermark_enabled then
    match st.watermark_id with
    | none => do
      let hc ← st.canvas.createE (watermarkPrim st)
      pure { st with canvas := hc.2.tagRaise hc.1, watermark_id := some hc.1 }
    | some h =>
      pure { st with canvas := (st.canvas.setText h st.settings.watermark_text).tagRaise h }
  else
    match st.watermark_id with
    | some h => pure { st with canvas := st.canvas.deleteItem h, watermark_id := none }
    | none => pure st

/-- One `animate` callback against the fallible surface.  The source has no
try/except anywhere on this path and the `root.after` reschedule is its
final statement, so any failure propagates out of the callback before the
next tick is scheduled: an `Except.error` result means the loop was not
rescheduled. -/
def animateE (st : AppState) : Except String (AppState × Nat) := do
  let st' ←
    if st.paused then pure st
    else do
      let st1 := { st with frame_count := st.frame_count + 1 }
      let st2 ←
        if st1.drawing_mode = "continuous" then draw_shapeE st1
        else burstDrawE st1.settings.burst_count st1
      let st3 ←
        if st2.settings.auto_clear_threshold ≤ st2.frame_count then clear_canvasE st2
        else pure st2
      let st4 := applyChaos st3
      let st5 ← applyMemeE st4
      applyWatermarkE st5
  pure (st', st'.speed_scale)

/-- The `SETTINGS` dictionary as initialized in `__init__`. -/
def initSettings : Settings :=
  { animation_speed := 50, auto_clear_threshold := 300, drawing_mode := "continuous",
    burst_count := 5, min_shape_size := 10, max_shape_size := 100,
    outline_only := false, mirror_drawing := false, grid_overlay := false,
    bg_color := 0, custom_palette := [], watermark_enabled := false,
    watermark_text := "My Watermark", meme_text := "", meme_font := "Impact",
    meme_font_size := 32, random_seed := none }

/-- The application state as initialized in `__init__` (before any tick),
with the random stream left as a parameter. -/
def initState (g : List Nat) : AppState :=
  { CANVAS_WIDTH := 800, CANVAS_HEIGHT := 600, paused := false, frame_count := 0,
    draw_history := [], meme_text_id := none, watermark_id := none,
    settings := initSettings,
    shape_types := { circle := true, line := true, arc := true, rectangle := true, triangle := true },
    special_mode := "Normal", chaos_mode := false, drawing_mode := "continuous",
    speed_scale := 50, canvas := {}, rng := g, status := "Status: Ready" }

/-- Shape enable set with only circles on. -/
def circleOnly : ShapeTypes :=
  { circle := true, line := false, arc := false, rectangle := false, triangle := false }

/-- Shape enable set with every type off. -/
def noShapes : ShapeTypes :=
  { circle := false, line := false, arc := false, rectangle := false, triangle := false }

/-- The five Tk item kinds that `draw_shape` ever creates for a shape; the
mirror loop recreates exactly these. -/
def recognizedKind (k : String) : Prop :=
  k = "oval" ∨ k = "line" ∨ k = "arc" ∨ k = "rectangle" ∨ k = "polygon"

instance (k : String) : Decidable (recognizedKind k) := by
  unfold recognizedKind
  infer_instance

/-- State with a non-empty custom palette of one red color, only circles
enabled, and a random stream whose color draw is green `0x00FF00`. -/
def stC1 : AppState :=
  { initState [0, 0, 0, 0, 0x00FF00] with
      settings := { initSettings with custom_palette := [0xFF0000] },
      shape_types := circleOnly }

/-- State with one recorded `"line"` shape in the history but only circles
enabled, used to replay. -/
def stC2 : AppState :=
  { initState [] with
      draw_history := [{ type := "line", items := [], mirror_items := [] }],
      shape_types := circleOnly }

/-- State with mirroring enabled and only circles enabled. -/
def stC4 : AppState :=
  { initState [] with
      settings := { initSettings with mirror_drawing := true },
      shape_types := circleOnly }

/-- Cleared continuous-mode state with auto-clear threshold 2. -/
def stC6 : AppState :=
  { initState [] with settings := { initSettings with auto_clear_threshold := 2 } }

/-- Burst-mode state whose very first primitive allocation fails. -/
def stC7 : AppState :=
  { initState [] with
      drawing_mode := "burst",
      settings := { initSettings with burst_count := 2 },
      canvas := { nextId := 1, items := [], failAt := [1] } }

/-- Burst-mode state with three shapes per tick whose second primitive
allocation fails. -/
def stC7b : AppState :=
  { initState [] with
      drawing_mode := "burst",
      settings := { initSettings with burst_count := 3 },
      canvas := { nextId := 1, items := [], failAt := [2] } }

/-- State with every shape type disabled. -/
def stC8 : AppState :=
  { initState [] with shape_types := noShapes }

/-- A paused state. -/
def stC10 : AppState :=
  { initState [] with paused := true }

theorem filter_ne_of_forall {l : List (Nat × Prim)} {k : Nat}
    (hl : ∀ q ∈ l, q.1 ≠ k) : l.filter (fun q => q.1 ≠ k) = l :=
  List.filter_eq_self.mpr (fun q hq => by simpa using hl q hq)

theorem find?_append_of_notin {l₁ l₂ : List (Nat × Prim)} {k : Nat}
    (hl : ∀ q ∈ l₁, q.1 ≠ k) :
    (l₁ ++ l₂).find? (fun q => q.1 = k) = l₂.find? (fun q => q.1 = k) := by
  induction l₁ with
  | nil => rfl
  | cons a t ih =>
    rw [List.cons_append, List.find?_cons_of_neg]
    · exact ih (fun q hq => hl q (List.mem_cons_of_mem _ hq))
    · simp [hl a (List.mem_cons_self _ _)]

theorem pyRandint_bounds (lo hi : Int) (g : List Nat) (h : lo ≤ hi) :
    lo ≤ (pyRandint lo hi g).1 ∧ (pyRandint lo hi g).1 ≤ hi := by
  cases g with
  | nil => exact ⟨le_refl lo, h⟩
  | cons r g' =>
    have h1 : 0 < (hi - lo + 1).toNat := by omega
    have hlt : ((r % (hi - lo + 1).toNat : Nat) : Int) < ((hi - lo + 1).toNat : Int) :=
      Int.ofNat_lt.mpr (Nat.mod_lt _ h1)
    have hge : (0 : Int) ≤ ((r % (hi - lo + 1).toNat : Nat) : Int) := Int.ofNat_nonneg _
    simp only [pyRandint]
    omega

theorem pickUniform_mem {α : Type} (l : List α) (hl : l ≠ []) (g : List Nat) :
    (pickUniform l hl g).1 ∈ l := by
  cases g with
  | nil => exact List.head_mem hl
  | cons r g' => exact List.get_mem l _ _

theorem mirroredCoords_length (W : Int) (l : List Int) :
    ∀ i, (mirroredCoords W i l).length = l.length := by
  induction l with
  | nil => intro i; rfl
  | cons v t ih => intro i; simp [mirroredCoords, ih]

theorem mirroredCoords_getD (W : Int) (l : List Int) :
    ∀ i j, j < l.length →
      (mirroredCoords W i l).getD j 0 =
        if (i + j) % 2 = 0 then W - l.getD j 0 else l.getD j 0 := by
  induction l with
  | nil => intro i j hj; simp at hj
  | cons v t ih =>
    intro i j hj
    cases j with
    | zero => simp [mirroredCoords]
    | succ j' =>
      have hr := ih (i + 1) j' (by simpa using hj)
      simp only [mirroredCoords, List.getD_cons_succ]
      rw [hr]
      have he : (i + 1) + j' = i + (j' + 1) := by omega
      rw [he]

theorem coordsOf_create (c : Canvas) (p : Prim) (hwf : c.WF) :
    ((c.create p).2).coordsOf (c.create p).1 = p.coords := by
  have hskip : ∀ q ∈ c.items, q.1 ≠ c.nextId := fun q hq => Nat.ne_of_lt (hwf q hq)
  simp only [Canvas.create, Canvas.coordsOf]
  rw [find?_append_of_notin hskip, List.find?_cons_of_pos _ (by simp)]

theorem typeOf_create (c : Canvas) (p : Prim) (hwf : c.WF) :
    ((c.create p).2).typeOf (c.create p).1 = p.kind := by
  have hskip : ∀ q ∈ c.items, q.1 ≠ c.nextId := fun q hq => Nat.ne_of_lt (hwf q hq)
  simp only [Canvas.create, Canvas.typeOf]
  rw [find?_append_of_notin hskip, List.find?_cons_of_pos _ (by simp)]

theorem coordsOf_create2_fst (c : Canvas) (p mp : Prim) (hwf : c.WF) :
    ((((c.create p).2).create mp).2).coordsOf (c.create p).1 = p.coords := by
  have hskip : ∀ q ∈ c.items, q.1 ≠ c.nextId := fun q hq => Nat.ne_of_lt (hwf q hq)
  simp only [Canvas.create, Canvas.coordsOf]
  rw [List.append_assoc, find?_append_of_notin hskip, List.singleton_append,
    List.find?_cons_of_pos _ (by simp)]

theorem coordsOf_create2_snd (c : Canvas) (p mp : Prim) (hwf : c.WF) :
    ((((c.create p).2).create mp).2).coordsOf (c.nextId + 1) = mp.coords := by
  have hskip : ∀ q ∈ (c.items ++ [(c.nextId, p)]), q.1 ≠ c.nextId + 1 := by
    intro q hq
    rcases List.mem_append.mp hq with h'|h'
    · exact Nat.ne_of_lt (Nat.lt_succ_of_lt (hwf q h'))
    · simp only [List.mem_singleton] at h'
      subst h'
      omega
  simp only [Canvas.create, Canvas.coordsOf]
  rw [find?_append_of_notin hskip, List.find?_cons_of_pos _ (by simp)]

theorem ultraRandomize_shape (s : Settings) (g : List Nat) :
    ∃ o m pal g', ultraRandomize s g =
      ({ s with outline_only := o, mirror_drawing := m, custom_palette := pal }, g') := by
  unfold ultraRandomize
  repeat' split
  all_goals exact ⟨_, _, _, _, rfl⟩

theorem enabledShapes_sub (ts : ShapeTypes) :
    ∀ s ∈ enabledShapes ts,
      s = "circle" ∨ s = "line" ∨ s = "arc" ∨ s = "rectangle" ∨ s = "triangle" := by
  intro s hs
  simp only [enabledShapes, List.mem_map, List.mem_filter] at hs
  obtain ⟨p, ⟨hme, _⟩, rfl⟩ := hs
  simp only [List.mem_cons, List.not_mem_nil, or_false] at hme
  rcases hme with h|h|h|h|h <;> subst h <;> simp

theorem genShapeType_known (ts : ShapeTypes) (g : List Nat) :
    (genShapeType ts g).1 = "circle" ∨ (genShapeType ts g).1 = "line" ∨
    (genShapeType ts g).1 = "arc" ∨ (genShapeType ts g).1 = "rectangle" ∨
    (genShapeType ts g).1 = "triangle" := by
  unfold genShapeType
  dsimp only
  split
  · left; rfl
  · next h =>
    exact enabledShapes_sub ts _ (pickUniform_mem (enabledShapes ts) h g)

theorem shapePrim_some_of_known (W H size x y col : Int) (t : String) (g : List Nat)
    (ht : t = "circle" ∨ t = "line" ∨ t = "arc" ∨ t = "rectangle" ∨ t = "triangle") :
    ∃ p, (shapePrim W H size x y col t g).1 = some p ∧ recognizedKind p.kind := by
  rcases ht with h|h|h|h|h <;> subst h <;> simp [shapePrim, recognizedKind]

theorem mirrorPrimOf_recognized (k : String) (mc : List Int) (col : Int)
    (hk : recognizedKind k) :
    mirrorPrimOf k mc col = some { kind := k, coords := mc, color := col } := by
  rcases hk with h|h|h|h|h <;> subst h <;> simp [mirrorPrimOf]

theorem drawParams_settings (st : AppState) :
    (drawParams st).settings =
      (if st.special_mode = "UltraRandom" then ultraRandomize st.settings st.rng
       else (st.settings, st.rng)).1 := rfl

theorem drawParams_shape_type (st : AppState) :
    (drawParams st).shape_type =
      (genShapeType st.shape_types
        (if st.special_mode = "UltraRandom" then ultraRandomize st.settings st.rng
         else (st.settings, st.rng)).2).1 := rfl

theorem drawParams_size (st : AppState) :
    (drawParams st).size =
      (pyRandint
        ((if st.special_mode = "UltraRandom" then ultraRandomize st.settings st.rng
          else (st.settings, st.rng)).1).min_shape_size
        ((if st.special_mode = "UltraRandom" then ultraRandomize st.settings st.rng
          else (st.settings, st.rng)).1).max_shape_size
        ((genShapeType st.shape_types
          (if st.special_mode = "UltraRandom" then ultraRandomize st.settings st.rng
           else (st.settings, st.rng)).2).2)).1 := rfl

theorem draw_shape_def (st : AppState) :
    draw_shape st =
      { st with
          settings := (drawParams st).settings,
          rng := (drawParams st).g,
          canvas := (renderAndRecord st.canvas (drawParams st).shape_type (drawParams st).prim
            (drawParams st).settings.mirror_drawing st.CANVAS_WIDTH (drawParams st).color).1,
          draw_history := st.draw_history ++
            [(renderAndRecord st.canvas (drawParams st).shape_type (drawParams st).prim
              (drawParams st).settings.mirror_drawing st.CANVAS_WIDTH (drawParams st).color).2] } := rfl

theorem rr_type (c : Canvas) (t : String) (p? : Option Prim) (m : Bool) (W col : Int) :
    (renderAndRecord c t p? m W col).2.type = t := by
  unfold renderAndRecord
  cases p? <;> cases m <;> rfl

theorem rr_none (c : Canvas) (t : String) (m : Bool) (W col : Int) :
    renderAndRecord c t none m W col = (c, { type := t, items := [], mirror_items := [] }) := by
  unfold renderAndRecord
  cases m <;> rfl

theorem rr_nomirror (c : Canvas) (t : String) (p : Prim) (W col : Int) :
    renderAndRecord c t (some p) false W col =
      ((c.create p).2, { type := t, items := [(c.create p).1], mirror_items := [] }) := by
  unfold renderAndRecord
  rfl

theorem rr_mirror_some (c : Canvas) (hwf : c.WF) (t : String) (p : Prim) (W col : Int)
    (mp : Prim) (hmp : mirrorPrimOf p.kind (mirroredCoords W 0 p.coords) col = some mp) :
    renderAndRecord c t (some p) true W col =
      ((((c.create p).2).create mp).2,
       { type := t, items := [(c.create p).1],
         mirror_items := [((c.create p).2).nextId] }) := by
  unfold renderAndRecord
  dsimp only
  rw [List.foldl_cons, List.foldl_nil]
  unfold mirrorStep
  dsimp only
  rw [coordsOf_create c p hwf, typeOf_create c p hwf, hmp]
  simp [Canvas.create]

theorem rr_mirror_none_kind (c : Canvas) (hwf : c.WF) (t : String) (p : Prim) (W col : Int)
    (hmp : mirrorPrimOf p.kind (mirroredCoords W 0 p.coords) col = none) :
    renderAndRecord c t (some p) true W col =
      ((c.create p).2, { type := t, items := [(c.create p).1], mirror_items := [] }) := by
  unfold renderAndRecord
  dsimp only
  rw [List.foldl_cons, List.foldl_nil]
  unfold mirrorStep
  dsimp only
  rw [coordsOf_create c p hwf, typeOf_create c p hwf, hmp]
  simp

theorem rr_undo (c : Canvas) (hwf : c.WF) (t : String) (p? : Option Prim) (m : Bool)
    (W col : Int) :
    (((renderAndRecord c t p? m W col).2.items ++
        (renderAndRecord c t p? m W col).2.mirror_items).foldl Canvas.deleteItem
      (renderAndRecord c t p? m W col).1).items = c.items := by
  have hskip : ∀ q ∈ c.items, q.1 ≠ c.nextId := fun q hq => Nat.ne_of_lt (hwf q hq)
  cases p? with
  | none =>
    rw [rr_none]
    rfl
  | some p =>
    cases m with
    | false =>
      rw [rr_nomirror]
      simp only [List.append_nil, List.foldl_cons, List.foldl_nil, Canvas.deleteItem,
        Canvas.create, List.filter_append]
      rw [filter_ne_of_forall hskip]
      simp
    | true =>
      cases hmp : mirrorPrimOf p.kind (mirroredCoords W 0 p.coords) col with
      | none =>
        rw [rr_mirror_none_kind c hwf t p W col hmp]
        simp only [List.append_nil, List.foldl_cons, List.foldl_nil, Canvas.deleteItem,
          Canvas.create, List.filter_append]
        rw [filter_ne_of_forall hskip]
        simp
      | some mp =>
        rw [rr_mirror_some c hwf t p W col mp hmp]
        simp only [List.cons_append, List.nil_append, List.foldl_cons, List.foldl_nil,
          Canvas.deleteItem, Canvas.create, List.filter_append, List.filter_filter]
        have hskip2 : ∀ q ∈ c.items, q.1 ≠ c.nextId + 1 :=
          fun q hq => Nat.ne_of_lt (Nat.lt_succ_of_lt (hwf q hq))
        rw [show (List.filter (fun a => decide (a.1 ≠ c.nextId + 1) && decide (a.1 ≠ c.nextId))
            c.items) = c.items from
          List.filter_eq_self.mpr (fun q hq => by simp [hskip q hq, hskip2 q hq])]
        simp

theorem draw_shape_frame (st : AppState) : (draw_shape st).frame_count = st.frame_count := by
  rw [draw_shape_def]

theorem draw_shape_paused (st : AppState) : (draw_shape st).paused = st.paused := by
  rw [draw_shape_def]

theorem draw_shape_mode (st : AppState) : (draw_shape st).drawing_mode = st.drawing_mode := by
  rw [draw_shape_def]

theorem draw_shape_speed (st : AppState) : (draw_shape st).speed_scale = st.speed_scale := by
  rw [draw_shape_def]

theorem draw_shape_status (st : AppState) : (draw_shape st).status = st.status := by
  rw [draw_shape_def]

theorem draw_shape_history_len (st : AppState) :
    (draw_shape st).draw_history.length = st.draw_history.length + 1 := by
  rw [draw_shape_def]
  simp

theorem draw_shape_threshold (st : AppState) :
    (draw_shape st).settings.auto_clear_threshold = st.settings.auto_clear_threshold := by
  rw [draw_shape_def]
  show (drawParams st).settings.auto_clear_threshold = _
  rw [drawParams_settings]
  split
  · obtain ⟨o, m, pal, g', he⟩ := ultraRandomize_shape st.settings st.rng
    rw [he]
  · rfl

theorem clear_canvas_shape (st : AppState) :
    ∃ c mid wid, clear_canvas st =
      { st with canvas := c, draw_history := [], frame_count := 0,
                meme_text_id := mid, watermark_id := wid } := by
  unfold clear_canvas update_grid draw_grid
  dsimp only
  repeat' split
  all_goals exact ⟨_, _, _, rfl⟩

theorem clear_canvas_frame (st : AppState) : (clear_canvas st).frame_count = 0 := by
  obtain ⟨c, mid, wid, h⟩ := clear_canvas_shape st
  rw [h]

theorem clear_canvas_history (st : AppState) : (clear_canvas st).draw_history = [] := by
  obtain ⟨c, mid, wid, h⟩ := clear_canvas_shape st
  rw [h]

theorem clear_canvas_paused (st : AppState) : (clear_canvas st).paused = st.paused := by
  obtain ⟨c, mid, wid, h⟩ := clear_canvas_shape st
  rw [h]

theorem clear_canvas_mode (st : AppState) : (clear_canvas st).drawing_mode = st.drawing_mode := by
  obtain ⟨c, mid, wid, h⟩ := clear_canvas_shape st
  rw [h]

theorem clear_canvas_settings (st : AppState) : (clear_canvas st).settings = st.settings := by
  obtain ⟨c, mid, wid, h⟩ := clear_canvas_shape st
  rw [h]

theorem clear_canvas_speed (st : AppState) : (clear_canvas st).speed_scale = st.speed_scale := by
  obtain ⟨c, mid, wid, h⟩ := clear_canvas_shape st
  rw [h]

theorem clear_canvas_status (st : AppState) : (clear_canvas st).status = st.status := by
  obtain ⟨c, mid, wid, h⟩ := clear_canvas_shape st
  rw [h]

theorem applyChaos_fields (st : AppState) :
    (applyChaos st).frame_count = st.frame_count ∧
    (applyChaos st).draw_history = st.draw_history ∧
    (applyChaos st).paused = st.paused ∧
    (applyChaos st).drawing_mode = st.drawing_mode ∧
    (applyChaos st).speed_scale = st.speed_scale ∧
    (applyChaos st).settings.auto_clear_threshold = st.settings.auto_clear_threshold := by
  unfold applyChaos
  repeat' split
  all_goals exact ⟨rfl, rfl, rfl, rfl, rfl, rfl⟩

theorem applyMeme_fields (st : AppState) :
    (applyMeme st).frame_count = st.frame_count ∧
    (applyMeme st).draw_history = st.draw_history ∧
    (applyMeme st).paused = st.paused ∧
    (applyMeme st).drawing_mode = st.drawing_mode ∧
    (applyMeme st).speed_scale = st.speed_scale ∧
    (applyMeme st).settings.auto_clear_threshold = st.settings.auto_clear_threshold := by
  unfold applyMeme
  repeat' split
  all_goals exact ⟨rfl, rfl, rfl, rfl, rfl, rfl⟩

theorem applyWatermark_fields (st : AppState) :
    (applyWatermark st).frame_count = st.frame_count ∧
    (applyWatermark st).draw_history = st.draw_history ∧
    (applyWatermark st).paused = st.paused ∧
    (applyWatermark st).drawing_mode = st.drawing_mode ∧
    (applyWatermark st).speed_scale = st.speed_scale ∧
    (applyWatermark st).settings.auto_clear_threshold = st.settings.auto_clear_threshold := by
  unfold applyWatermark
  repeat' split
  all_goals exact ⟨rfl, rfl, rfl, rfl, rfl, rfl⟩

theorem burstDraw_fields (n : Nat) : ∀ st : AppState,
    (burstDraw n st).frame_count = st.frame_count ∧
    (burstDraw n st).paused = st.paused ∧
    (burstDraw n st).drawing_mode = st.drawing_mode ∧
    (burstDraw n st).speed_scale = st.speed_scale ∧
    (burstDraw n st).settings.auto_clear_threshold = st.settings.auto_clear_threshold := by
  induction n with
  | zero => intro st; exact ⟨rfl, rfl, rfl, rfl, rfl⟩
  | succ k ih =>
    intro st
    obtain ⟨h1, h2, h3, h4, h5⟩ := ih (draw_shape st)
    simp only [burstDraw]
    exact ⟨h1.trans (draw_shape_frame st), h2.trans (draw_shape_paused st),
      h3.trans (draw_shape_mode st), h4.trans (draw_shape_speed st),
      h5.trans (draw_shape_threshold st)⟩

theorem drawParams_prim_spec (st : AppState) :
    ∃ p, (drawParams st).prim = some p ∧ recognizedKind p.kind := by
  unfold drawParams
  obtain ⟨s, g1, h1⟩ : ∃ a b,
      (if st.special_mode = "UltraRandom" then ultraRandomize st.settings st.rng
       else (st.settings, st.rng)) = (a, b) := ⟨_, _, rfl⟩
  rw [h1]
  dsimp only
  obtain ⟨t, g2, h2⟩ : ∃ a b, genShapeType st.shape_types g1 = (a, b) := ⟨_, _, rfl⟩
  rw [h2]
  dsimp only
  obtain ⟨size, g3, h3⟩ : ∃ a b,
      pyRandint s.min_shape_size s.max_shape_size g2 = (a, b) := ⟨_, _, rfl⟩
  rw [h3]
  dsimp only
  obtain ⟨x, g4, h4⟩ : ∃ a b, pyRandint 0 st.CANVAS_WIDTH g3 = (a, b) := ⟨_, _, rfl⟩
  rw [h4]
  dsimp only
  obtain ⟨y, g5, h5⟩ : ∃ a b, pyRandint 0 st.CANVAS_HEIGHT g4 = (a, b) := ⟨_, _, rfl⟩
  rw [h5]
  dsimp only
  obtain ⟨color, g6, h6⟩ : ∃ a b, random_color g5 = (a, b) := ⟨_, _, rfl⟩
  rw [h6]
  dsimp only
  obtain ⟨pr, g7, h7⟩ : ∃ a b,
      shapePrim st.CANVAS_WIDTH st.CANVAS_HEIGHT size x y color t g6 = (a, b) := ⟨_, _, rfl⟩
  rw [h7]
  dsimp only
  have ht : t = "circle" ∨ t = "line" ∨ t = "arc" ∨ t = "rectangle" ∨ t = "triangle" := by
    have hk := genShapeType_known st.shape_types g1
    rw [h2] at hk
    simpa using hk
  obtain ⟨p, hp, hk⟩ :=
    shapePrim_some_of_known st.CANVAS_WIDTH st.CANVAS_HEIGHT size x y color t g6 ht
  rw [h7] at hp
  exact ⟨p, hp, hk⟩

/-- C3: undo is the exact inverse of one generation step: for every
well-formed state, one `draw_shape` followed by one `undo_last_shape`
restores the draw-history length and the number of live canvas primitives
(mirror primitives included); undo on an empty history is a no-op that
reports "No shapes to undo". -/
theorem generate_undo_inverse (st : AppState) (hwf : st.canvas.WF) :
    ((undo_last_shape (draw_shape st)).draw_history.length = st.draw_history.length ∧
     (undo_last_shape (draw_shape st)).canvas.items.length = st.canvas.items.length) ∧
    (st.draw_history = [] →
      undo_last_shape st = { st with status := "No shapes to undo" }) := by
  constructor
  · rw [draw_shape_def]
    unfold undo_last_shape
    dsimp only
    rw [List.getLast?_concat]
    dsimp only
    constructor
    · simp [List.dropLast_concat]
    · rw [← List.foldl_append]
      rw [rr_undo st.canvas hwf (drawParams st).shape_type (drawParams st).prim
        (drawParams st).settings.mirror_drawing st.CANVAS_WIDTH (drawParams st).color]
  · intro h
    unfold undo_last_shape
    rw [h]
    rfl

theorem generate_undo_inverse_witness :
    (undo_last_shape (draw_shape (initState []))).draw_history.length =
      (initState []).draw_history.length ∧
    (undo_last_shape (draw_shape (initState []))).canvas.items.length =
      (initState []).canvas.items.length ∧
    undo_last_shape (initState []) = { initState [] with status := "No shapes to undo" } :=
  ⟨(generate_undo_inverse (initState []) (by decide)).1.1,
   (generate_undo_inverse (initState []) (by decide)).1.2,
   (generate_undo_inverse (initState []) (by decide)).2 rfl⟩

/-- C5: whenever `min_shape_size ≤ max_shape_size`, the size sampled by
`draw_shape` lies in the inclusive interval `[min_shape_size,
max_shape_size]`. -/
theorem size_within_bounds (st : AppState)
    (h : st.settings.min_shape_size ≤ st.settings.max_shape_size) :
    st.settings.min_shape_size ≤ (drawParams st).size ∧
    (drawParams st).size ≤ st.settings.max_shape_size := by
  have hmin : ((if st.special_mode = "UltraRandom" then ultraRandomize st.settings st.rng
      else (st.settings, st.rng)).1).min_shape_size = st.settings.min_shape_size := by
    split
    · obtain ⟨o, m, pal, g', he⟩ := ultraRandomize_shape st.settings st.rng
      rw [he]
    · rfl
  have hmax : ((if st.special_mode = "UltraRandom" then ultraRandomize st.settings st.rng
      else (st.settings, st.rng)).1).max_shape_size = st.settings.max_shape_size := by
    split
    · obtain ⟨o, m, pal, g', he⟩ := ultraRandomize_shape st.settings st.rng
      rw [he]
    · rfl
  rw [drawParams_size, ← hmin, ← hmax]
  exact pyRandint_bounds _ _ _ (by rw [hmin, hmax]; exact h)

theorem size_within_bounds_witness :
    (initState []).settings.min_shape_size ≤ (drawParams (initState [])).size ∧
    (drawParams (initState [])).size ≤ (initState []).settings.max_shape_size :=
  size_within_bounds (initState []) (by decide)

/-- C8: when the enabled-shape set is empty, `draw_shape` falls back to the
type `"circle"` for the appended record (and, being a total function of the
state, surfaces no error to its caller). -/
theorem empty_shapes_falls_back_to_circle (st : AppState)
    (h : enabledShapes st.shape_types = []) :
    (draw_shape st).draw_history.map ShapeRecord.type =
      st.draw_history.map ShapeRecord.type ++ ["circle"] := by
  have ht : (drawParams st).shape_type = "circle" := by
    rw [drawParams_shape_type]
    unfold genShapeType
    dsimp only
    rw [dif_pos h]
  rw [draw_shape_def]
  dsimp only
  simp [List.map_append, rr_type, ht]

theorem empty_shapes_falls_back_to_circle_witness :
    (draw_shape stC8).draw_history.map ShapeRecord.type = ["circle"] :=
  (empty_shapes_falls_back_to_circle stC8 (by decide)).trans (by decide)

/-- C9: a seed entry that fails integer parsing is rejected at the
settings-write boundary (`random_seed`, the stream, the canvas and the
history keep their prior values; the status line reports the invalid
value), while an integer entry re-seeds the stream and stores the seed,
reporting it. -/
theorem seed_parse_boundary (seedFn : Int → List Nat) (st : AppState) (v : Int) :
    (set_random_seed seedFn none st).settings.random_seed = st.settings.random_seed ∧
    (set_random_seed seedFn none st).rng = st.rng ∧
    (set_random_seed seedFn none st).status = "Invalid seed value" ∧
    (set_random_seed seedFn none st).canvas = st.canvas ∧
    (set_random_seed seedFn none st).draw_history = st.draw_history ∧
    (set_random_seed seedFn (some v) st).settings.random_seed = some v ∧
    (set_random_seed seedFn (some v) st).rng = seedFn v ∧
    (set_random_seed seedFn (some v) st).status = "Seed set to " ++ toString v :=
  ⟨rfl, rfl, rfl, rfl, rfl, rfl, rfl, rfl⟩

/-- C10: a tick scheduled while paused changes nothing at all — frame
counter, history, canvas and overlay handles included — and merely
reschedules after the current speed-scale value. -/
theorem paused_tick_noop (st : AppState) (hp : st.paused = true) :
    animate st = (st, st.speed_scale) := by
  simp [animate, hp]

theorem paused_tick_noop_witness : animate stC10 = (stC10, stC10.speed_scale) :=
  paused_tick_noop stC10 rfl

/-- C1 (bug evidence): with the non-empty palette `[#ff0000]` configured,
`draw_shape` still colors the shape with the fresh `random_color()` draw
(here `#00ff00`), a color not in the palette: `custom_palette` is never
consulted by the drawing path. -/
theorem palette_never_consulted :
    stC1.settings.custom_palette = [0xFF0000] ∧
    ((draw_shape stC1).canvas.items.map (fun q => q.2.color)) = [0x00FF00] ∧
    (0x00FF00 : Int) ∉ stC1.settings.custom_palette := by
  decide

theorem replay_next_len (n : Nat) : ∀ st : AppState,
    (replay_next n st).draw_history.length = st.draw_history.length + n := by
  induction n with
  | zero => intro st; rfl
  | succ k ih =>
    intro st
    simp only [replay_next]
    rw [ih (draw_shape st), draw_shape_history_len]
    omega

theorem replay_next_status (n : Nat) : ∀ st : AppState,
    (replay_next n st).status = "Replay complete" := by
  induction n with
  | zero => intro st; rfl
  | succ k ih => intro st; simp only [replay_next]; exact ih (draw_shape st)

/-- C2 (counterexample): replaying a one-record history whose recorded type
is `"line"` re-renders a `"circle"` — `replay_history` re-runs `draw_shape`
and never consults the recorded types. -/
theorem replay_types_not_preserved :
    stC2.draw_history.map ShapeRecord.type = ["line"] ∧
    (replay_history stC2).draw_history.map ShapeRecord.type = ["circle"] ∧
    (replay_history stC2).draw_history.map ShapeRecord.type ≠
      stC2.draw_history.map ShapeRecord.type := by
  decide

/-- C2 (amended): replaying a non-empty history of `n` records clears the
canvas and history and re-renders exactly `n` freshly generated shapes,
reporting completion when the snapshot is exhausted; the shape count is
preserved, but the types are re-sampled, not the recorded ones. -/
theorem replay_count_and_completion (st : AppState) (h : st.draw_history ≠ []) :
    (replay_history st).draw_history.length = st.draw_history.length ∧
    (replay_history st).status = "Replay complete" := by
  have hie : st.draw_history.isEmpty = false := by
    cases hd : st.draw_history with
    | nil => exact absurd hd h
    | cons a l => rfl
  unfold replay_history
  rw [if_neg (by simp [hie])]
  dsimp only
  constructor
  · rw [replay_next_len]
    simp [clear_canvas_history]
  · rw [replay_next_status]

theorem replay_count_and_completion_witness :
    (replay_history stC2).draw_history.length = stC2.draw_history.length ∧
    (replay_history stC2).status = "Replay complete" :=
  replay_count_and_completion stC2 (by decide)

theorem coordsOf_create2_fst' (c : Canvas) (p mp : Prim) (hwf : c.WF) :
    ((((c.create p).2).create mp).2).coordsOf c.nextId = p.coords :=
  coordsOf_create2_fst c p mp hwf

/-- C4: for every shape drawn with the mirror flag set (any of the five
types, since the state is arbitrary), the record carries one primitive and
one mirror primitive, and the mirror primitive's coordinate list matches
the original's order and length with `mirroredX = width - originalX` at
every even index and `mirroredY = originalY` at every odd index. -/
theorem mirror_coords_spec (st : AppState) (hwf : st.canvas.WF)
    (hm : st.settings.mirror_drawing = true) (hn : st.special_mode ≠ "UltraRandom") :
    (draw_shape st).draw_history.getLast?.map ShapeRecord.items = some [st.canvas.nextId] ∧
    (draw_shape st).draw_history.getLast?.map ShapeRecord.mirror_items =
      some [st.canvas.nextId + 1] ∧
    ((draw_shape st).canvas.coordsOf (st.canvas.nextId + 1)).length =
      ((draw_shape st).canvas.coordsOf st.canvas.nextId).length ∧
    (∀ i, i < ((draw_shape st).canvas.coordsOf st.canvas.nextId).length →
      ((draw_shape st).canvas.coordsOf (st.canvas.nextId + 1)).getD i 0 =
        if i % 2 = 0 then
          st.CANVAS_WIDTH - ((draw_shape st).canvas.coordsOf st.canvas.nextId).getD i 0
        else ((draw_shape st).canvas.coordsOf st.canvas.nextId).getD i 0) := by
  obtain ⟨p, hp, hk⟩ := drawParams_prim_spec st
  have hms : (drawParams st).settings.mirror_drawing = true := by
    rw [drawParams_settings, if_neg hn]
    exact hm
  have hmp : mirrorPrimOf p.kind (mirroredCoords st.CANVAS_WIDTH 0 p.coords)
      (drawParams st).color =
      some { kind := p.kind, coords := mirroredCoords st.CANVAS_WIDTH 0 p.coords,
             color := (drawParams st).color } :=
    mirrorPrimOf_recognized _ _ _ hk
  have hrr := rr_mirror_some st.canvas hwf (drawParams st).shape_type p st.CANVAS_WIDTH
    (drawParams st).color _ hmp
  rw [draw_shape_def, hp, hms, hrr]
  dsimp only
  refine ⟨?_, ?_, ?_, ?_⟩
  · rw [List.getLast?_concat]
    simp [Canvas.create]
  · rw [List.getLast?_concat]
    simp [Canvas.create]
  · rw [coordsOf_create2_snd st.canvas p _ hwf, coordsOf_create2_fst' st.canvas p _ hwf]
    simpa using mirroredCoords_length st.CANVAS_WIDTH p.coords 0
  · intro i hi
    rw [coordsOf_create2_snd st.canvas p _ hwf]
    rw [coordsOf_create2_fst' st.canvas p _ hwf] at hi ⊢
    have hg := mirroredCoords_getD st.CANVAS_WIDTH p.coords 0 i (by simpa using hi)
    simpa using hg

theorem mirror_coords_spec_witness :
    ((draw_shape stC4).canvas.coordsOf (stC4.canvas.nextId + 1)).length =
      ((draw_shape stC4).canvas.coordsOf stC4.canvas.nextId).length ∧
    ((draw_shape stC4).canvas.coordsOf (stC4.canvas.nextId + 1)).getD 0 0 =
      stC4.CANVAS_WIDTH - ((draw_shape stC4).canvas.coordsOf stC4.canvas.nextId).getD 0 0 ∧
    ((draw_shape stC4).canvas.coordsOf (stC4.canvas.nextId + 1)).getD 1 0 =
      ((draw_shape stC4).canvas.coordsOf stC4.canvas.nextId).getD 1 0 := by
  have h := mirror_coords_spec stC4 (by decide) rfl (by decide)
  refine ⟨h.2.2.1, ?_, ?_⟩
  · have := h.2.2.2 0 (by decide)
    simpa using this
  · have := h.2.2.2 1 (by decide)
    simpa using this

theorem tick_fields (st : AppState) (hp : st.paused = false)
    (hm : st.drawing_mode = "continuous") :
    ((tick st).frame_count =
      if st.settings.auto_clear_threshold ≤ st.frame_count + 1 then 0
      else st.frame_count + 1) ∧
    (st.settings.auto_clear_threshold ≤ st.frame_count + 1 → (tick st).draw_history = []) ∧
    (tick st).paused = false ∧
    (tick st).drawing_mode = "continuous" ∧
    (tick st).settings.auto_clear_threshold = st.settings.auto_clear_threshold := by
  unfold tick animate
  dsimp only
  rw [if_neg (by rw [hp]; exact Bool.false_ne_true)]
  rw [if_pos (show ({ st with frame_count := st.frame_count + 1 } : AppState).drawing_mode =
    "continuous" from hm)]
  by_cases hc : st.settings.auto_clear_threshold ≤ st.frame_count + 1
  · rw [if_pos (show (draw_shape { st with frame_count := st.frame_count + 1 }).settings.auto_clear_threshold ≤
        (draw_shape { st with frame_count := st.frame_count + 1 }).frame_count by
      rw [draw_shape_threshold, draw_shape_frame]; exact hc)]
    refine ⟨?_, fun _ => ?_, ?_, ?_, ?_⟩
    · rw [(applyWatermark_fields _).1, (applyMeme_fields _).1, (applyChaos_fields _).1,
        clear_canvas_frame, if_pos hc]
    · rw [(applyWatermark_fields _).2.1, (applyMeme_fields _).2.1, (applyChaos_fields _).2.1,
        clear_canvas_history]
    · rw [(applyWatermark_fields _).2.2.1, (applyMeme_fields _).2.2.1,
        (applyChaos_fields _).2.2.1, clear_canvas_paused, draw_shape_paused]
      exact hp
    · rw [(applyWatermark_fields _).2.2.2.1, (applyMeme_fields _).2.2.2.1,
        (applyChaos_fields _).2.2.2.1, clear_canvas_mode, draw_shape_mode]
      exact hm
    · rw [(applyWatermark_fields _).2.2.2.2.2, (applyMeme_fields _).2.2.2.2.2,
        (applyChaos_fields _).2.2.2.2.2, clear_canvas_settings, draw_shape_threshold]
  · rw [if_neg (show ¬((draw_shape { st with frame_count := st.frame_count + 1 }).settings.auto_clear_threshold ≤
        (draw_shape { st with frame_count := st.frame_count + 1 }).frame_count) by
      rw [draw_shape_threshold, draw_shape_frame]; exact hc)]
    refine ⟨?_, fun hcc => absurd hcc hc, ?_, ?_, ?_⟩
    · rw [(applyWatermark_fields _).1, (applyMeme_fields _).1, (applyChaos_fields _).1,
        draw_shape_frame, if_neg hc]
    · rw [(applyWatermark_fields _).2.2.1, (applyMeme_fields _).2.2.1,
        (applyChaos_fields _).2.2.1, draw_shape_paused]
      exact hp
    · rw [(applyWatermark_fields _).2.2.2.1, (applyMeme_fields _).2.2.2.1,
        (applyChaos_fields _).2.2.2.1, draw_shape_mode]
      exact hm
    · rw [(applyWatermark_fields _).2.2.2.2.2, (applyMeme_fields _).2.2.2.2.2,
        (applyChaos_fields _).2.2.2.2.2, draw_shape_threshold]

/-- C6: starting from a cleared state in unpaused continuous mode, the
frame counter reads exactly `k` after `k < threshold` ticks, and the tick
numbered `threshold` resets the counter to 0 and empties the draw history
(the auto-clear). -/
theorem auto_clear_after_threshold (st : AppState) (hp : st.paused = false)
    (hm : st.drawing_mode = "continuous") (hf : st.frame_count = 0)
    (hT : 1 ≤ st.settings.auto_clear_threshold) :
    (∀ k, k < st.settings.auto_clear_threshold → (tick^[k] st).frame_count = k) ∧
    (tick^[st.settings.auto_clear_threshold] st).frame_count = 0 ∧
    (tick^[st.settings.auto_clear_threshold] st).draw_history = [] := by
  have key : ∀ k, k < st.settings.auto_clear_threshold →
      (tick^[k] st).frame_count = k ∧ (tick^[k] st).paused = false ∧
      (tick^[k] st).drawing_mode = "continuous" ∧
      (tick^[k] st).settings.auto_clear_threshold = st.settings.auto_clear_threshold := by
    intro k
    induction k with
    | zero =>
      intro _
      simpa using ⟨hf, hp, hm⟩
    | succ k ih =>
      intro hk
      obtain ⟨h1, h2, h3, h4⟩ := ih (by omega)
      obtain ⟨f1, _, f3, f4, f5⟩ := tick_fields (tick^[k] st) h2 h3
      rw [Function.iterate_succ_apply']
      refine ⟨?_, f3, f4, ?_⟩
      · rw [f1, h1, h4, if_neg (by omega)]
      · rw [f5, h4]
  constructor
  · exact fun k hk => (key k hk).1
  · obtain ⟨h1, h2, h3, h4⟩ :=
      key (st.settings.auto_clear_threshold - 1) (by omega)
    obtain ⟨f1, f2, _, _, _⟩ := tick_fields (tick^[st.settings.auto_clear_threshold - 1] st) h2 h3
    have hs : st.settings.auto_clear_threshold = (st.settings.auto_clear_threshold - 1) + 1 := by
      omega
    rw [hs, Function.iterate_succ_apply']
    constructor
    · rw [f1, h1, h4, if_pos (by omega)]
    · exact f2 (by rw [h1, h4]; omega)

theorem auto_clear_after_threshold_witness :
    (tick^[2] stC6).frame_count = 0 ∧ (tick^[2] stC6).draw_history = [] ∧
    (tick^[1] stC6).frame_count = 1 := by
  have h := auto_clear_after_threshold stC6 rfl rfl rfl (by decide)
  exact ⟨h.2.1, h.2.2, h.1 1 (by decide)⟩

theorem except_bind_error {α β : Type} (e : String) (f : α → Except String β) :
    ((Except.error e : Except String α) >>= f) = Except.error e := rfl

theorem except_bind_ok {α β : Type} (a : α) (f : α → Except String β) :
    ((Except.ok a : Except String α) >>= f) = f a := rfl

/-- C7 (counterexample): in burst mode with a surface that rejects the very
first primitive allocation, the whole tick fails: `animateE` returns the
error instead of a reschedule delay, so the loop is not rescheduled. -/
theorem render_failure_stops_tick_cex :
    animateE stC7 = Except.error "SurfaceOperationFailed" := by
  rfl

/-- C7 (amended): a rendering failure while drawing one shape is not
caught anywhere on the tick path: once the burst loop has failed, drawing
any further iterations is skipped (the error is the final result however
many iterations remain), and the tick itself returns the error instead of
a reschedule delay, stopping the animation loop. -/
theorem render_failure_aborts_and_stops :
    (∀ (n m : Nat) (st : AppState) (e : String),
        burstDrawE n st = Except.error e → burstDrawE (n + m) st = Except.error e) ∧
    (∀ (st : AppState) (e : String), st.paused = false → st.drawing_mode ≠ "continuous" →
        burstDrawE st.settings.burst_count { st with frame_count := st.frame_count + 1 } =
          Except.error e →
        animateE st = Except.error e) := by
  constructor
  · intro n
    induction n with
    | zero =>
      intro m st e h
      exact Except.noConfusion h
    | succ k ih =>
      intro m st e h
      rw [show k + 1 + m = (k + m) + 1 from by omega]
      cases hds : draw_shapeE st with
      | error e' =>
        have hh : burstDrawE (k + 1) st = Except.error e' := by
          simp only [burstDrawE, hds, except_bind_error]
        rw [hh] at h
        simp only [burstDrawE, hds, except_bind_error]
        exact h
      | ok st' =>
        have hh : burstDrawE (k + 1) st = burstDrawE k st' := by
          simp only [burstDrawE, hds, except_bind_ok]
        rw [hh] at h
        have hr := ih m st' e h
        simp only [burstDrawE, hds, except_bind_ok]
        exact hr
  · intro st e hpz hmz hb
    unfold animateE
    dsimp only
    rw [if_neg (by rw [hpz]; exact Bool.false_ne_true)]
    rw [if_neg (show ¬(({ st with frame_count := st.frame_count + 1 } : AppState).drawing_mode =
      "continuous") from hmz)]
    rw [hb, except_bind_error]

theorem render_failure_aborts_and_stops_witness :
    burstDrawE (1 + 1) stC7 = Except.error "SurfaceOperationFailed" ∧
    animateE stC7b = Except.error "SurfaceOperationFailed" := by
  constructor
  · exact render_failure_aborts_and_stops.1 1 1 stC7 "SurfaceOperationFailed" (by rfl)
  · exact render_failure_aborts_and_stops.2 stC7b "SurfaceOperationFailed" rfl (by decide)
      (by rfl)
